import Mathlib

/-!
Shallow embedding of the `logerr` Go package (file `logerr.go`).

Modelling conventions:
* Go's `LogLevel` (an `int` enum, iota 0..4) becomes an inductive with `toNat`.
* Go errors become the inductive `GoError`: `errors.New`/`fmt.Errorf("%v", v)`
  produce `GoError.base`, and `fmt.Errorf("...%w", err)` produces
  `GoError.wrapped msg err` (message plus wrapped inner error).  `Error()` is
  `GoError.Error`; `errors.Is` is `errorsIs` (unwrap chain search).
* A Go `any` argument to the logging surface is `GoValue`: a string, an error,
  or any other value carried as its `fmt` `%v` rendering.
* The `Output io.Writer` sink is modelled by returning the written line(s):
  a call yields `Option String` (the line written, sans the `Fprintln`
  newline) or a `List String` when several writes can happen.
* `time.Now().Format("2006-01-02 15:04:05.000 ")` is modelled by threading a
  `now : String` (the rendered `YYYY-MM-DD HH:MM:SS.mmm` text); the format
  string's trailing space is appended where the source appends it.
* `os.Exit(1)` is modelled by an `Option Nat` exit-code component in results.
* Methods with a pointer receiver that mutate it return the receiver's
  post-state; `Add` (which only reads through the pointer) returns the pair
  (receiver post-state, returned copy).
-/

namespace Logerr

/-- The `LogLevel` constants, `LogLevelDebug` iota = 0 through `LogLevelFatal` = 4. -/
inductive LogLevel
  | debug
  | info
  | warn
  | error
  | fatal
deriving DecidableEq, Repr

/-- The numeric value of a `LogLevel` (the Go `int` behind the iota enum). -/
def LogLevel.toNat : LogLevel → Nat
  | .debug => 0
  | .info => 1
  | .warn => 2
  | .error => 3
  | .fatal => 4

/-- Go `l.Level <= level` comparison on the underlying ints. -/
def LogLevel.le (a b : LogLevel) : Bool := decide (a.toNat ≤ b.toNat)

/-- The `labels` map: string labels for each log level. -/
def labels : LogLevel → String
  | .debug => "DBG"
  | .info => "INF"
  | .warn => "WRN"
  | .error => "ERR"
  | .fatal => "FATAL"

/-- ANSI escape sequence emitted by `labelColors[level]` (fatih/color:
FgCyan 36, FgGreen 32, FgYellow 33, FgRed 31, BgRed 41). -/
def labelColorSeq : LogLevel → String
  | .debug => "\x1b[36m"
  | .info => "\x1b[32m"
  | .warn => "\x1b[33m"
  | .error => "\x1b[31m"
  | .fatal => "\x1b[41m"

/-- Go error values: `base` is an unwrapped error (`errors.New` or
`fmt.Errorf` without `%w`) carrying its message; `wrapped` is a
`fmt.Errorf("...%w...", err)` error carrying its rendered message and the
wrapped inner error. -/
inductive GoError
  | base (msg : String)
  | wrapped (msg : String) (inner : GoError)
deriving DecidableEq, Repr

/-- The `Error()` method: the error's message string. -/
def GoError.Error : GoError → String
  | .base m => m
  | .wrapped m _ => m

/-- Go `errors.Is`: walk the unwrap chain looking for the target. -/
def errorsIs (e target : GoError) : Bool :=
  match e with
  | .base _ => e == target
  | .wrapped _ inner => e == target || errorsIs inner target

/-- An `any` value passed to the logging surface: a string, an error, or any
other value carried as its `fmt` `%v` rendering. -/
inductive GoValue
  | str (s : String)
  | err (e : GoError)
  | other (rendered : String)
deriving DecidableEq, Repr

/-- Source `messageToString`: converts a message (string or error) to string;
default case is `fmt.Sprintf("%v", msg)`. -/
def messageToString : GoValue → String
  | .str s => s
  | .err e => e.Error
  | .other r => r

/-- The `Logger` struct.  The `Output io.Writer` field is not carried; writes
are modelled as returned lines. -/
structure Logger where
  Level : LogLevel
  Exclusive : Bool
  LogWrappedErrors : Bool
  context : List String
  NoColor : Bool
  ShowTimestamps : Bool
  ContextSeparator : String
deriving DecidableEq, Repr

/-- Source `Context()`: `strings.Join(l.context, l.ContextSeparator)`. -/
def Logger.Context (l : Logger) : String :=
  String.intercalate l.ContextSeparator l.context

/-- Source `ClearContext()`: `l.context = make([]string, 0)` — receiver post-state. -/
def Logger.ClearContext (l : Logger) : Logger :=
  { l with context := [] }

/-- Source `SetContext(s)`: value receiver; sets `context` to the one-element slice
`[]string{s}` and returns the modified copy. -/
def Logger.SetContext (l : Logger) (s : String) : Logger :=
  { l with context := [s] }

/-- Source `Add(context)`: `dup := *l; dup.context = append(dup.context, context);
return dup`.  The receiver is only read, so its post-state is `l` itself;
the second component is the returned copy. -/
def Logger.Add (l : Logger) (s : String) : Logger × Logger :=
  (l, { l with context := l.context ++ [s] })

/-- Source `EnableColors()`: receiver post-state. -/
def Logger.EnableColors (l : Logger) : Logger :=
  { l with NoColor := false }

/-- Source `DisableColors()`: receiver post-state. -/
def Logger.DisableColors (l : Logger) : Logger :=
  { l with NoColor := true }

/-- Source `SetContextSeparator(separator)`: receiver post-state. -/
def Logger.SetContextSeparator (l : Logger) (separator : String) : Logger :=
  { l with ContextSeparator := separator }

/-- Source `EnableTimestamps()`: receiver post-state. -/
def Logger.EnableTimestamps (l : Logger) : Logger :=
  { l with ShowTimestamps := true }

/-- Source `DisableTimestamps()`: receiver post-state. -/
def Logger.DisableTimestamps (l : Logger) : Logger :=
  { l with ShowTimestamps := false }

/-- Source `SetLogLevel(lvl)`: receiver post-state. -/
def Logger.SetLogLevel (l : Logger) (lvl : LogLevel) : Logger :=
  { l with Level := lvl }

/-- Source `DefaultLogger()`: level Error, colors off, separator `" | "`, then
`SetContext("")` (Go zero values: `Exclusive=false`, `LogWrappedErrors=false`,
`ShowTimestamps=false`, `context=nil`). -/
def DefaultLogger : Logger :=
  Logger.SetContext
    { Level := .error
      Exclusive := false
      LogWrappedErrors := false
      context := []
      NoColor := true
      ShowTimestamps := false
      ContextSeparator := " | " } ""

/-- Source `shouldLog(level)`:
`(l.Level == level && l.Exclusive) || (l.Level <= level && !l.Exclusive)`. -/
def Logger.shouldLog (l : Logger) (level : LogLevel) : Bool :=
  (l.Level == level && l.Exclusive) || (LogLevel.le l.Level level && !l.Exclusive)

/-- Source `formatLabel(level, noColor)`: `"[LABEL] "`, colorized via
`labelColors[level].Sprintf` unless `noColor`. -/
def formatLabel (level : LogLevel) (noColor : Bool) : String :=
  if noColor then "[" ++ labels level ++ "] "
  else labelColorSeq level ++ "[" ++ labels level ++ "] " ++ "\x1b[0m"

/-- Source `formatLogMessage(level, msg)`: timestamp (when enabled) then label; if
the rendered context is empty the message follows directly, otherwise
context and the context separator come between label and message.  `now` is
the rendered `time.Now()` text; the source's format string carries a
trailing space, appended here. -/
def Logger.formatLogMessage (l : Logger) (now : String) (level : LogLevel)
    (msg : String) : String :=
  let label := formatLabel level l.NoColor
  let ctx := l.Context
  let timestamp := if l.ShowTimestamps then now ++ " " else ""
  if ctx = "" then timestamp ++ label ++ msg
  else timestamp ++ label ++ ctx ++ l.ContextSeparator ++ msg

/-- Source `log(level, args...)`: returns early when no arguments were provided;
a single argument is converted directly, several are each converted and
joined with a single space; the formatted line is written iff `shouldLog`
passes.  The result is the line handed to `Fprintln` (`none` = no write). -/
def Logger.log (l : Logger) (now : String) (level : LogLevel)
    (args : List GoValue) : Option String :=
  if l.shouldLog level then
    match args with
    | [] => none
    | [a] => some (l.formatLogMessage now level (messageToString a))
    | _ => some (l.formatLogMessage now level
        (String.intercalate " " (args.map messageToString)))
  else none

/-- Source `logf(level, format, args...)`: guarded by `shouldLog`, then delegates to
`log` with the `fmt.Sprintf` result.  Interpolation itself is host behavior;
the already-interpolated string is taken as input. -/
def Logger.logf (l : Logger) (now : String) (level : LogLevel)
    (formatted : String) : Option String :=
  if l.shouldLog level then l.log now level [GoValue.str formatted] else none

/-- Source `Debug(args...)`. -/
def Logger.Debug (l : Logger) (now : String) (args : List GoValue) :
    Option String := l.log now .debug args

/-- Source `Debugf(format, args...)`. -/
def Logger.Debugf (l : Logger) (now : String) (formatted : String) :
    Option String := l.logf now .debug formatted

/-- Source `Info(args...)`. -/
def Logger.Info (l : Logger) (now : String) (args : List GoValue) :
    Option String := l.log now .info args

/-- Source `Infof(format, args...)`. -/
def Logger.Infof (l : Logger) (now : String) (formatted : String) :
    Option String := l.logf now .info formatted

/-- Source `Warn(args...)`. -/
def Logger.Warn (l : Logger) (now : String) (args : List GoValue) :
    Option String := l.log now .warn args

/-- Source `Warnf(format, args...)`. -/
def Logger.Warnf (l : Logger) (now : String) (formatted : String) :
    Option String := l.logf now .warn formatted

/-- Source `Error(args...)`. -/
def Logger.Error (l : Logger) (now : String) (args : List GoValue) :
    Option String := l.log now .error args

/-- Source `Errorf(format, args...)`. -/
def Logger.Errorf (l : Logger) (now : String) (formatted : String) :
    Option String := l.logf now .error formatted

/-- Source `Fatal(args...)`: logs at FATAL level then `os.Exit(1)`.  Second
component is the exit status. -/
def Logger.Fatal (l : Logger) (now : String) (args : List GoValue) :
    Option String × Nat := (l.log now .fatal args, 1)

/-- Source `Fatalf(format, args...)`: `logf` at FATAL level then `os.Exit(1)`. -/
def Logger.Fatalf (l : Logger) (now : String) (formatted : String) :
    Option String × Nat := (l.logf now .fatal formatted, 1)

/-- The type switch at the head of `Wrap`: an error is used as is, a string
goes through `errors.New`, anything else through `fmt.Errorf("%v", v)`. -/
def wrapCoerce : GoValue → GoError
  | .err e => e
  | .str s => GoError.base s
  | .other r => GoError.base r

/-- Source `Wrap(val)`: coerce the input to an error; when `LogWrappedErrors` is set,
`l.Error(err)` first; return `fmt.Errorf("%s%s%w", l.Context(),
l.ContextSeparator, err)`.  First component: the lines written by the
`Error` call; second: the returned wrapped error. -/
def Logger.Wrap (l : Logger) (now : String) (val : GoValue) :
    List String × GoError :=
  let err := wrapCoerce val
  let emitted := if l.LogWrappedErrors
    then (l.Error now [GoValue.err err]).toList else []
  (emitted, GoError.wrapped (l.Context ++ l.ContextSeparator ++ err.Error) err)

/-- One call on the package's public per-logger surface. -/
inductive Op
  | debug (args : List GoValue)
  | debugf (formatted : String)
  | info (args : List GoValue)
  | infof (formatted : String)
  | warn (args : List GoValue)
  | warnf (formatted : String)
  | error (args : List GoValue)
  | errorf (formatted : String)
  | fatal (args : List GoValue)
  | fatalf (formatted : String)
  | wrapVal (v : GoValue)
  | add (s : String)
  | setContext (s : String)
  | clearContext
  | setContextSeparator (s : String)
  | setLogLevel (lvl : LogLevel)
  | enableColors
  | disableColors
  | enableTimestamps
  | disableTimestamps
deriving DecidableEq, Repr

/-- Whether an `Op` is one of the two Fatal-level entry points. -/
def Op.isFatalOp : Op → Bool
  | .fatal _ => true
  | .fatalf _ => true
  | _ => false

/-- Observable result of one call: the logger the caller continues with (for
`Add`, the returned child; for mutating setters, the receiver's post-state),
the lines written to the sink, and the exit status when the call terminates
the process. -/
structure OpResult where
  state : Logger
  lines : List String
  exit : Option Nat
deriving Repr

/-- Step semantics: run one call on a logger. -/
def runOp (l : Logger) (now : String) : Op → OpResult
  | .debug args => ⟨l, (l.Debug now args).toList, none⟩
  | .debugf s => ⟨l, (l.Debugf now s).toList, none⟩
  | .info args => ⟨l, (l.Info now args).toList, none⟩
  | .infof s => ⟨l, (l.Infof now s).toList, none⟩
  | .warn args => ⟨l, (l.Warn now args).toList, none⟩
  | .warnf s => ⟨l, (l.Warnf now s).toList, none⟩
  | .error args => ⟨l, (l.Error now args).toList, none⟩
  | .errorf s => ⟨l, (l.Errorf now s).toList, none⟩
  | .fatal args => ⟨l, (l.Fatal now args).1.toList, some (l.Fatal now args).2⟩
  | .fatalf s => ⟨l, (l.Fatalf now s).1.toList, some (l.Fatalf now s).2⟩
  | .wrapVal v => ⟨l, (l.Wrap now v).1, none⟩
  | .add s => ⟨(l.Add s).2, [], none⟩
  | .setContext s => ⟨l.SetContext s, [], none⟩
  | .clearContext => ⟨l.ClearContext, [], none⟩
  | .setContextSeparator s => ⟨l.SetContextSeparator s, [], none⟩
  | .setLogLevel lvl => ⟨l.SetLogLevel lvl, [], none⟩
  | .enableColors => ⟨l.EnableColors, [], none⟩
  | .disableColors => ⟨l.DisableColors, [], none⟩
  | .enableTimestamps => ⟨l.EnableTimestamps, [], none⟩
  | .disableTimestamps => ⟨l.DisableTimestamps, [], none⟩

/-- Run a sequence of calls, following the resulting logger each time. -/
def applyOps (now : String) (l : Logger) : List Op → Logger
  | [] => l
  | op :: rest => applyOps now (runOp l now op).state rest

/-- A logger reachable from `DefaultLogger` by some sequence of the
package's operations. -/
def Reachable (l : Logger) : Prop :=
  ∃ now ops, applyOps now DefaultLogger ops = l

/-- Every error satisfies `errors.Is` against itself. -/
theorem errorsIs_self (e : GoError) : errorsIs e e = true := by
  cases e <;> simp [errorsIs]

/-- Any operation other than `clearContext` keeps the context chain
nonempty. -/
theorem runOp_context_ne_nil (l : Logger) (now : String) (op : Op)
    (hop : op ≠ Op.clearContext) (h : l.context ≠ []) :
    (runOp l now op).state.context ≠ [] := by
  cases op <;>
    simp_all [runOp, Logger.Add, Logger.SetContext, Logger.ClearContext,
      Logger.SetContextSeparator, Logger.SetLogLevel, Logger.EnableColors,
      Logger.DisableColors, Logger.EnableTimestamps, Logger.DisableTimestamps]

/-- A formatted line always ends with the message text. -/
theorem formatLogMessage_ends_with_msg (l : Logger) (now : String)
    (level : LogLevel) (msg : String) :
    ∃ p, l.formatLogMessage now level msg = p ++ msg := by
  unfold Logger.formatLogMessage
  by_cases hc : l.Context = ""
  · exact ⟨(if l.ShowTimestamps then now ++ " " else "")
      ++ formatLabel level l.NoColor, by simp [hc]⟩
  · exact ⟨(if l.ShowTimestamps then now ++ " " else "")
      ++ formatLabel level l.NoColor ++ l.Context ++ l.ContextSeparator,
      by simp [hc]⟩

/-- C1: in non-exclusive mode `shouldLog(level)` passes iff the configured
level is at most the message level, in exclusive mode iff it equals it, and
a leveled logging call (carrying at least one message value) writes a line
to the sink iff this filter passes. -/
theorem shouldLog_filter_spec (l : Logger) (now : String) (level : LogLevel)
    (args : List GoValue) (h : args ≠ []) :
    ((l.log now level args).isSome ↔ l.shouldLog level = true)
    ∧ (l.Exclusive = false →
        (l.shouldLog level = true ↔ l.Level.toNat ≤ level.toNat))
    ∧ (l.Exclusive = true → (l.shouldLog level = true ↔ l.Level = level)) := by
  refine ⟨?_, ?_, ?_⟩
  · match args with
    | [] => exact absurd rfl h
    | [a] => cases hs : l.shouldLog level <;> simp [Logger.log, hs]
    | a :: b :: rest => cases hs : l.shouldLog level <;> simp [Logger.log, hs]
  · intro hx; simp [Logger.shouldLog, hx, LogLevel.le]
  · intro hx; simp [Logger.shouldLog, hx]

/-- Witness for C1 at the default logger, an Error-level message. -/
theorem shouldLog_filter_spec_witness :
    ((DefaultLogger.log "" .error [GoValue.str "x"]).isSome
        ↔ DefaultLogger.shouldLog .error = true)
    ∧ (DefaultLogger.Exclusive = false →
        (DefaultLogger.shouldLog .error = true ↔
          DefaultLogger.Level.toNat ≤ LogLevel.toNat .error))
    ∧ (DefaultLogger.Exclusive = true →
        (DefaultLogger.shouldLog .error = true ↔ DefaultLogger.Level = .error)) :=
  shouldLog_filter_spec DefaultLogger "" .error [GoValue.str "x"] (by decide)

/-- C2: `Fatal` and `Fatalf` terminate the process with exit status 1 for
every configuration (even when the filter suppresses the message), and no
other operation terminates the process. -/
theorem fatal_exit_spec (l : Logger) (now : String) :
    (∀ args, (l.Fatal now args).2 = 1)
    ∧ (∀ s, (l.Fatalf now s).2 = 1)
    ∧ ∀ op, (runOp l now op).exit
        = if op.isFatalOp = true then some 1 else none := by
  refine ⟨fun _ => rfl, fun _ => rfl, fun op => ?_⟩
  cases op <;> rfl

/-- C3: wrapping an error yields an error whose description is the rendered
context, then the separator, then the inner description, and `errors.Is`
against the inner error succeeds. -/
theorem wrap_description_and_chain (l : Logger) (now : String) (e : GoError) :
    ((l.Wrap now (GoValue.err e)).2).Error
        = l.Context ++ l.ContextSeparator ++ GoError.Error e
    ∧ errorsIs ((l.Wrap now (GoValue.err e)).2) e = true := by
  constructor
  · rfl
  · simp [Logger.Wrap, wrapCoerce, errorsIs, errorsIs_self]

/-- C5: `Add(s)` returns a copy whose context chain is the parent's chain
with `s` appended, every other field equal to the parent's, and leaves the
parent (the receiver) entirely unchanged. -/
theorem add_appends_and_frames (l : Logger) (s : String) :
    (l.Add s).1 = l
    ∧ ((l.Add s).2).context = l.context ++ [s]
    ∧ ((l.Add s).2).Level = l.Level
    ∧ ((l.Add s).2).Exclusive = l.Exclusive
    ∧ ((l.Add s).2).LogWrappedErrors = l.LogWrappedErrors
    ∧ ((l.Add s).2).NoColor = l.NoColor
    ∧ ((l.Add s).2).ShowTimestamps = l.ShowTimestamps
    ∧ ((l.Add s).2).ContextSeparator = l.ContextSeparator :=
  ⟨rfl, rfl, rfl, rfl, rfl, rfl, rfl, rfl⟩

/-- C4 counterexample: `ClearContext` is one of the package's operations,
is reachable from `DefaultLogger`, and leaves a context chain with zero
elements — refuting "at least one element" for every reachable logger. -/
theorem clearContext_reachable_empty :
    Reachable (Logger.ClearContext DefaultLogger)
    ∧ (Logger.ClearContext DefaultLogger).context.length = 0 :=
  ⟨⟨"", [Op.clearContext], rfl⟩, rfl⟩

/-- C4 (amended): every logger reachable from `DefaultLogger` by a sequence
of operations that does not include `clearContext` has a context chain with
at least one element. -/
theorem context_nonempty_without_clear (now : String) (ops : List Op)
    (h : Op.clearContext ∉ ops) :
    1 ≤ (applyOps now DefaultLogger ops).context.length := by
  have key : ∀ ops (l : Logger), Op.clearContext ∉ ops → l.context ≠ [] →
      (applyOps now l ops).context ≠ [] := by
    intro ops
    induction ops with
    | nil => intro l _ h2; exact h2
    | cons op rest ih =>
      intro l h1 h2
      simp only [applyOps]
      exact ih _ (fun hm => h1 (List.mem_cons_of_mem _ hm))
        (runOp_context_ne_nil l now op
          (fun he => h1 (he ▸ List.mem_cons_self _ _)) h2)
  have h0 : DefaultLogger.context ≠ [] := by decide
  exact List.length_pos.mpr (key ops DefaultLogger h h0)

/-- Witness for the amended C4: deriving one child from the default logger. -/
theorem context_nonempty_without_clear_witness :
    1 ≤ (applyOps "" DefaultLogger [Op.add "b"]).context.length :=
  context_nonempty_without_clear "" [Op.add "b"] (by decide)

/-- C6: with `LogWrappedErrors` enabled, `Wrap` emits exactly one
Error-severity line — containing the inner error's text — when the logger's
filter passes at Error severity, and none when it does not; with
`LogWrappedErrors` disabled, `Wrap` writes nothing. -/
theorem wrap_logs_inner_error (l : Logger) (now : String) (v : GoValue) :
    (l.LogWrappedErrors = true →
      (l.Wrap now v).1.length = (if l.shouldLog .error = true then 1 else 0)
      ∧ ∀ line ∈ (l.Wrap now v).1, ∃ p, line = p ++ (wrapCoerce v).Error)
    ∧ (l.LogWrappedErrors = false → (l.Wrap now v).1 = []) := by
  constructor
  · intro hw
    constructor
    · cases hs : l.shouldLog .error <;>
        simp [Logger.Wrap, hw, Logger.Error, Logger.log, hs]
    · intro line hline
      cases hs : l.shouldLog .error
      · simp [Logger.Wrap, hw, Logger.Error, Logger.log, hs] at hline
      · simp [Logger.Wrap, hw, Logger.Error, Logger.log, hs] at hline
        exact hline ▸ formatLogMessage_ends_with_msg l now .error
          (messageToString (GoValue.err (wrapCoerce v)))
  · intro hw
    simp [Logger.Wrap, hw]

/-- Logger used to witness C6: wrapped-error logging enabled, level Error,
non-exclusive. -/
def wrapWitnessLogger : Logger :=
  { Level := .error
    Exclusive := false
    LogWrappedErrors := true
    context := ["svc"]
    NoColor := true
    ShowTimestamps := false
    ContextSeparator := " | " }

/-- Witness for C6 at a concrete logger with `LogWrappedErrors` enabled. -/
theorem wrap_logs_inner_error_witness :
    (wrapWitnessLogger.Wrap "" (GoValue.err (GoError.base "boom"))).1.length
        = (if wrapWitnessLogger.shouldLog .error = true then 1 else 0)
    ∧ ∀ line ∈ (wrapWitnessLogger.Wrap "" (GoValue.err (GoError.base "boom"))).1,
        ∃ p, line = p ++ (wrapCoerce (GoValue.err (GoError.base "boom"))).Error :=
  (wrap_logs_inner_error wrapWitnessLogger ""
    (GoValue.err (GoError.base "boom"))).1 rfl

/-- C7: with an empty rendered context the line is the optional timestamp,
then the label, then the message directly (no dangling separator); with a
non-empty rendered context the line is timestamp, label, context,
separator, message. -/
theorem formatLogMessage_shape (l : Logger) (now : String) (level : LogLevel)
    (msg : String) :
    (l.Context = "" → l.formatLogMessage now level msg
        = (if l.ShowTimestamps then now ++ " " else "")
          ++ formatLabel level l.NoColor ++ msg)
    ∧ (l.Context ≠ "" → l.formatLogMessage now level msg
        = (if l.ShowTimestamps then now ++ " " else "")
          ++ formatLabel level l.NoColor ++ l.Context
          ++ l.ContextSeparator ++ msg) := by
  constructor <;> intro hc <;> simp [Logger.formatLogMessage, hc]

/-- Witness for C7: the default logger renders an empty context, a logger
with context `"svc"` renders a non-empty one. -/
theorem formatLogMessage_shape_witness :
    (DefaultLogger.formatLogMessage "" .info "hello"
        = (if DefaultLogger.ShowTimestamps then "" ++ " " else "")
          ++ formatLabel .info DefaultLogger.NoColor ++ "hello")
    ∧ (wrapWitnessLogger.formatLogMessage "" .info "hello"
        = (if wrapWitnessLogger.ShowTimestamps then "" ++ " " else "")
          ++ formatLabel .info wrapWitnessLogger.NoColor
          ++ wrapWitnessLogger.Context
          ++ wrapWitnessLogger.ContextSeparator ++ "hello") :=
  ⟨(formatLogMessage_shape DefaultLogger "" .info "hello").1 rfl,
   (formatLogMessage_shape wrapWitnessLogger "" .info "hello").2 (by decide)⟩

/-- C8: wrapping a string yields the same rendered description as wrapping
an error built from that string, and wrapping any other value promotes its
generic stringification to an error (never failing). -/
theorem wrap_string_promotion (l : Logger) (now : String) (s r : String) :
    ((l.Wrap now (GoValue.str s)).2).Error
        = ((l.Wrap now (GoValue.err (GoError.base s))).2).Error
    ∧ ((l.Wrap now (GoValue.other r)).2).Error
        = l.Context ++ l.ContextSeparator ++ r :=
  ⟨rfl, rfl⟩

/-- C9: with an empty context chain, a wrapped error's description starts
with the context separator followed by the inner description (the leading
separator is retained), while the message formatter collapses the empty
context with no dangling separator. -/
theorem wrap_empty_context_leading_sep (l : Logger) (now : String)
    (v : GoValue) (h : l.context = []) :
    ((l.Wrap now v).2).Error = l.ContextSeparator ++ (wrapCoerce v).Error
    ∧ ∀ level msg, l.formatLogMessage now level msg
        = (if l.ShowTimestamps then now ++ " " else "")
          ++ formatLabel level l.NoColor ++ msg := by
  have hctx : l.Context = "" := by
    unfold Logger.Context
    rw [h]
    rfl
  constructor
  · show l.Context ++ l.ContextSeparator ++ (wrapCoerce v).Error = _
    rw [hctx]
    simp
  · intro level msg
    simp [Logger.formatLogMessage, hctx]

/-- Witness for C9: the default logger after `ClearContext`, wrapping a
string. -/
theorem wrap_empty_context_leading_sep_witness :
    (((Logger.ClearContext DefaultLogger).Wrap "" (GoValue.str "boom")).2).Error
        = (Logger.ClearContext DefaultLogger).ContextSeparator
          ++ (wrapCoerce (GoValue.str "boom")).Error
    ∧ ∀ level msg,
        (Logger.ClearContext DefaultLogger).formatLogMessage "" level msg
          = (if (Logger.ClearContext DefaultLogger).ShowTimestamps
              then "" ++ " " else "")
            ++ formatLabel level (Logger.ClearContext DefaultLogger).NoColor
            ++ msg :=
  wrap_empty_context_leading_sep (Logger.ClearContext DefaultLogger) ""
    (GoValue.str "boom") rfl

/-- C10: every direct-form leveled method called with zero message
arguments writes nothing to the sink, whatever the filter decides. -/
theorem zero_args_logs_nothing (l : Logger) (now : String) :
    l.Debug now [] = none ∧ l.Info now [] = none ∧ l.Warn now [] = none
    ∧ l.Error now [] = none ∧ (l.Fatal now []).1 = none
    ∧ ∀ level, l.log now level [] = none := by
  have key : ∀ level, l.log now level [] = none := by
    intro level
    unfold Logger.log
    cases l.shouldLog level <;> simp
  exact ⟨key _, key _, key _, key _, key _, key⟩

end Logerr
